import Mathlib

/-
Shallow embedding of the go-clamd client (src/clamd.go).

Conventions used throughout:
* The clamd protocol text is ASCII, so Go byte-indexed strings are modelled
  as Lean `String` values, with byte positions coinciding with character
  positions.
* The response channel `chan *ScanResult` produced by `readResponse` is
  modelled by the finite list of records it delivers; a receive from the
  channel after it closed yields the nil pointer, modelled as `none`.
* The `CLAMDConn` helpers (`newCLAMDTcpConn`, `newCLAMDUnixConn`,
  `sendCommand`, `sendChunk`, `sendEOF`, `readResponse`, `CHUNK_SIZE`) live
  in a repository file outside src/.  Where their behaviour matters it is
  modelled from the spec, and each such definition says so in its doc
  comment.
-/

namespace GoClamd

/-- Go `strings.HasPrefix s pre` on the ASCII protocol text. -/
def goStartsWith (s pre : String) : Bool :=
  pre.data.isPrefixOf s.data

/-- Go string slicing `s[n:]` on ASCII text.  The Go runtime panics with a
slice-bounds violation when `n` exceeds the length, modelled by `none`. -/
def goDropFrom (s : String) (n : Nat) : Option String :=
  if n ≤ s.data.length then some (String.mk (s.data.drop n)) else none

/-- Go `strings.Trim s " "`: removes leading and trailing space characters. -/
def trimSpaces (s : String) : String :=
  String.mk (((s.data.dropWhile fun c => c == ' ').reverse.dropWhile fun c => c == ' ').reverse)

/-- The `ScanResult` record type of src/clamd.go (one decoded reply record). -/
structure ScanResult where
  Raw : String
  Description : String
  Path : String
  Hash : String
  Size : Int
  Status : String
deriving DecidableEq

/-- The `Stats` aggregate of src/clamd.go, field order as declared there. -/
structure Stats where
  Pools : String
  State : String
  Threads : String
  Memstats : String
  Queue : String
deriving DecidableEq

/-- The zero value `&Stats{}` the loop in `Clamd.Stats` starts from. -/
def Stats.empty : Stats := ⟨"", "", "", "", ""⟩

/-- Outcome of running the `Clamd.Stats` record loop: a Stats value, a Go
error, or a Go runtime panic. -/
inductive StatsOutcome where
  | ok (stats : Stats)
  | err (msg : String)
  | panicked (msg : String)
deriving DecidableEq

/-- The Go runtime message for an out-of-range string slice. -/
def sliceBoundsMsg : String := "runtime error: slice bounds out of range"

/-- The error text `Clamd.Stats` builds for an unrecognized record.  Go
renders the whole record via `%v`; the record is modelled here by its `Raw`
text, the only field the Stats loop inspects, so the message names the
offending record by embedding that text. -/
def statsUnknownMsg (raw : String) : String :=
  "Unknown response, got " ++ raw ++ "."

/-- The `for s := range ch` classification loop of `Clamd.Stats`
(src/clamd.go lines 167-186), acting on the raw texts of the delivered
records.  Branch order and prefix tests are exactly those of the source;
`s.Raw[6:]` is the checked Go slice `goDropFrom`. -/
def statsLoop (acc : Stats) : List String → StatsOutcome
  | [] => StatsOutcome.ok acc
  | raw :: rest =>
    if goStartsWith raw "POOLS" then
      match goDropFrom raw 6 with
      | some tl => statsLoop { acc with Pools := trimSpaces tl } rest
      | none => StatsOutcome.panicked sliceBoundsMsg
    else if goStartsWith raw "STATE" then
      statsLoop { acc with State := raw } rest
    else if goStartsWith raw "THREADS" then
      statsLoop { acc with Threads := raw } rest
    else if goStartsWith raw "QUEUE" then
      statsLoop { acc with Queue := raw } rest
    else if goStartsWith raw "MEMSTATS" then
      statsLoop { acc with Memstats := raw } rest
    else if goStartsWith raw "END" then
      statsLoop acc rest
    else
      StatsOutcome.err (statsUnknownMsg raw)

/-- `Clamd.Stats` on the drained reply sequence (the channel closes after the
last record, ending the range loop). -/
def statsRun (records : List String) : StatsOutcome :=
  statsLoop Stats.empty records

/-- Whether a record matches one of the six prefixes the Stats loop tests. -/
def statsRecognizes (raw : String) : Bool :=
  goStartsWith raw "POOLS" || goStartsWith raw "STATE" || goStartsWith raw "THREADS" ||
    goStartsWith raw "QUEUE" || goStartsWith raw "MEMSTATS" || goStartsWith raw "END"

/-- Outcome of `Clamd.Ping`: success, the invalid-response error, or the Go
runtime panic from dereferencing a nil `*ScanResult`. -/
inductive PingOutcome where
  | ok
  | protoErr (msg : String)
  | nilDeref
deriving DecidableEq

/-- The error text `Clamd.Ping` builds (`Invalid response, got %v.`); the
record is modelled by its `Raw` text as in `statsUnknownMsg`. -/
def pingInvalidMsg (s : ScanResult) : String :=
  "Invalid response, got " ++ s.Raw ++ "."

/-- `Clamd.Ping` (src/clamd.go lines 133-148) applied to the single value
received from the response channel.  `none` models the nil pointer obtained
when the channel closes without delivering a record (readResponse closes the
channel after the reply is drained; modelled from the spec since that file is
outside src/); the source then evaluates `s.Raw` on the nil pointer, a
runtime panic. -/
def Ping (reply : Option ScanResult) : PingOutcome :=
  match reply with
  | none => PingOutcome.nilDeref
  | some s =>
    if s.Raw = "PONG" then PingOutcome.ok
    else PingOutcome.protoErr (pingInvalidMsg s)

/-- The parsed URL shape used by `Clamd.newConnection` (fields of Go
`net/url.URL` the source reads). -/
structure GoURL where
  Scheme : String
  Host : String
  Path : String
deriving DecidableEq

/-- The connection endpoint selected by `Clamd.newConnection`.  Modelled from
the spec: `newCLAMDTcpConn` dials host:port over TCP, `newCLAMDUnixConn`
dials a local domain-socket path (both defined outside src/). -/
inductive ConnTarget where
  | tcp (hostport : String)
  | unixSock (path : String)
deriving DecidableEq

/-- Observable actions of the client, used to instrument the embedding. -/
inductive Event where
  | parseAddr (address : String)
  | dialTcp (hostport : String)
  | dialUnix (path : String)
  | sendCmd (command : String)
deriving DecidableEq

/-- The `Clamd` struct of src/clamd.go: it stores only the raw address
string. -/
structure Clamd where
  address : String
deriving DecidableEq

/-- `NewClamd` (src/clamd.go lines 359-362): stores the address verbatim and
performs no parsing. -/
def NewClamd (address : String) : Clamd := ⟨address⟩

/-- Instrumented trace of `NewClamd`: its body only stores the string, so it
emits no events at all. -/
def newClamdEvents (_address : String) : List Event := []

/-- `Clamd.newConnection` (src/clamd.go lines 69-86), instrumented with its
event trace.  `parseURL` abstracts Go `url.Parse` (standard library, an
external collaborator).  The Go `switch u.Scheme` is the if-chain below; the
default branch dials the entire original address string, as in the source. -/
def newConnectionT (parseURL : String → Except String GoURL) (address : String) :
    List Event × Except String ConnTarget :=
  match parseURL address with
  | Except.error e => ([Event.parseAddr address], Except.error e)
  | Except.ok u =>
    if u.Scheme = "tcp" then
      ([Event.parseAddr address, Event.dialTcp u.Host], Except.ok (ConnTarget.tcp u.Host))
    else if u.Scheme = "unix" then
      ([Event.parseAddr address, Event.dialUnix u.Path], Except.ok (ConnTarget.unixSock u.Path))
    else
      ([Event.parseAddr address, Event.dialUnix address], Except.ok (ConnTarget.unixSock address))

/-- The connection-establishment and command-send phase of
`Clamd.simpleCommand` (src/clamd.go lines 88-128), instrumented: it calls
`newConnection` on the stored address, then sends the command line.  The
response handling is modelled separately (`simpleCommandSeq`, `statsLoop`,
`Ping`). -/
def simpleCommandT (parseURL : String → Except String GoURL) (c : Clamd) (command : String) :
    List Event × Except String ConnTarget :=
  match (newConnectionT parseURL c.address).2 with
  | Except.error e => ((newConnectionT parseURL c.address).1, Except.error e)
  | Except.ok t =>
    ((newConnectionT parseURL c.address).1 ++ [Event.sendCmd command], Except.ok t)

/-- Number of `url.Parse` invocations recorded in a trace. -/
def parseCount (events : List Event) : Nat :=
  (events.filter fun e =>
    match e with
    | Event.parseAddr _ => true
    | _ => false).length

/-- A concrete `url.Parse` oracle for witness inputs. -/
def parseOracle : String → Except String GoURL := fun a =>
  if a = "tcp://localhost:3310" then Except.ok ⟨"tcp", "localhost:3310", ""⟩
  else if a = "unix:///run/clamd.sock" then Except.ok ⟨"unix", "", "/run/clamd.sock"⟩
  else if a = "/run/clamd.sock" then Except.ok ⟨"", "", "/run/clamd.sock"⟩
  else Except.error "parse error"

/-- The response sequence `Clamd.simpleCommand` delivers on its channel for a
given command, abstracted by a daemon oracle `resp` indexed by the client's
address and the command line (readResponse is outside src/; per the spec it
delivers the decoded records in order and then closes the channel). -/
def simpleCommandSeq (resp : String → String → List ScanResult) (c : Clamd)
    (command : String) : List ScanResult :=
  resp c.address command

/-- `Clamd.ScanFile` (src/clamd.go lines 222-226) on the success path:
builds `fmt.Sprintf("SCAN %s", path)`, issues it, and receives once from the
channel (`none` models the nil pointer from an empty closed channel).  The
first component records the command line sent. -/
def ScanFile (resp : String → String → List ScanResult) (c : Clamd) (path : String) :
    String × Option ScanResult :=
  let command := "SCAN " ++ path
  (command, (simpleCommandSeq resp c command).head?)

/-- `Clamd.RawScanFile` (src/clamd.go lines 232-236). -/
def RawScanFile (resp : String → String → List ScanResult) (c : Clamd) (path : String) :
    String × Option ScanResult :=
  let command := "RAWSCAN " ++ path
  (command, (simpleCommandSeq resp c command).head?)

/-- `Clamd.MultiScanFile` (src/clamd.go lines 242-246). -/
def MultiScanFile (resp : String → String → List ScanResult) (c : Clamd) (path : String) :
    String × Option ScanResult :=
  let command := "MULTISCAN " ++ path
  (command, (simpleCommandSeq resp c command).head?)

/-- `Clamd.ContScanFile` (src/clamd.go lines 252-256). -/
def ContScanFile (resp : String → String → List ScanResult) (c : Clamd) (path : String) :
    String × Option ScanResult :=
  let command := "CONTSCAN " ++ path
  (command, (simpleCommandSeq resp c command).head?)

/-- `Clamd.AllMatchScanFile` (src/clamd.go lines 262-266). -/
def AllMatchScanFile (resp : String → String → List ScanResult) (c : Clamd) (path : String) :
    String × Option ScanResult :=
  let command := "ALLMATCHSCAN " ++ path
  (command, (simpleCommandSeq resp c command).head?)

/-- One result of `r.Read(buf)` in the ScanStream upload loop: the bytes
placed in `buf[0:nr]` and whether the read also returned a non-nil error. -/
structure ReadRes where
  data : List Nat
  rerr : Bool
deriving DecidableEq

/-- The upload loop of `Clamd.ScanStream` (src/clamd.go lines 312-327).
`sendFails i` tells whether the i-th `conn.sendChunk` call returns an error
(for instance because the abort watcher closed the connection before it);
`sent` counts the sendChunk calls already made.  Returns the list of
payloads `buf[0:nr]` passed to `sendChunk` (the attempted chunks) and the
sublist of those whose send succeeded (the delivered chunks).  Faithful to
the source: when `nr > 0` the loop's `err` is overwritten by the sendChunk
result, discarding the read error, so the loop breaks exactly when the
sendChunk of a non-empty read fails or an empty read carries an error; an
exhausted source is an empty read with an error (`io.EOF`). -/
def uploadLoop (sendFails : Nat → Bool) (sent : Nat) : List ReadRes → List (List Nat) × List (List Nat)
  | [] => ([], [])
  | r :: rest =>
    if r.data.isEmpty then
      if r.rerr then ([], [])
      else uploadLoop sendFails sent rest
    else
      if sendFails sent then ([r.data], [])
      else
        let p := uploadLoop sendFails (sent + 1) rest
        (r.data :: p.1, r.data :: p.2)

/-- A frame handed to the connection during INSTREAM upload: a length-prefixed
data chunk, or the zero-length terminator written by `sendEOF` (framing
itself lives outside src/ and is modelled from the spec as these markers). -/
inductive Send where
  | chunk (payload : List Nat)
  | eofMark
deriving DecidableEq

/-- The sequence of frames `Clamd.ScanStream` hands to the connection after
the INSTREAM command: the chunks attempted by the upload loop, then exactly
one `sendEOF` terminator, called unconditionally after the loop exits
(src/clamd.go line 331). -/
def scanStreamFrames (sendFails : Nat → Bool) (reads : List ReadRes) : List Send :=
  ((uploadLoop sendFails 0 reads).1.map Send.chunk) ++ [Send.eofMark]

/-- The Go net error text for writing on a connection the watcher closed. -/
def closedConnMsg : String := "use of closed network connection"

/-- Whether `Clamd.ScanStream` returns an error after the upload phase: chunk
send failures inside the loop are only logged, but a failing `conn.sendEOF()`
makes the function return the error (src/clamd.go lines 331-334).  The EOF
write is the send attempt following the loop's attempts, so its failure is
`sendFails` at that index. -/
def scanStreamOutcome (sendFails : Nat → Bool) (reads : List ReadRes) : Except String Unit :=
  let p := uploadLoop sendFails 0 reads
  if sendFails p.1.length then Except.error closedConnMsg else Except.ok ()

/-- The abort-watcher goroutine of `Clamd.ScanStream` (src/clamd.go lines
289-301), run against the abort channel modelled as the list of values
received before the channel closes: each received value leaves `allowRunning`
true and the loop continues; the close of the channel yields ok=false,
breaking the loop, after which the watcher invokes `conn.Close()`.  Returns
whether the watcher reaches the Close call. -/
def abortWatcherCloses : List Bool → Bool
  | [] => true
  | _ :: rest => abortWatcherCloses rest

/-- Joint state of the response decoder and the deferred-close goroutine:
records delivered so far, whether the decoder signalled completion
(`wg.Done` after the last record), and whether the connection was closed. -/
structure DrainState where
  delivered : Nat
  done : Bool
  closed : Bool
deriving DecidableEq

/-- Interleaving steps of the decoder task and the closer goroutine of
`Clamd.simpleCommand` (src/clamd.go lines 105-117) and `Clamd.ScanStream`
(lines 342-353), for a response of `total` records.  The decoder delivers
records in order and signals completion only after the last one (readResponse
is outside src/; the completion signal is modelled from spec section 4.3);
the closer goroutine runs `wg.Wait()` before `conn.Close()`, so its close
step is enabled only once the completion signal is set. -/
inductive DrainStep (total : Nat) : DrainState → DrainState → Prop where
  | deliver (d : Nat) (c : Bool) (h : d < total) :
      DrainStep total ⟨d, false, c⟩ ⟨d + 1, false, c⟩
  | signalDone (c : Bool) :
      DrainStep total ⟨total, false, c⟩ ⟨total, true, c⟩
  | close (d : Nat) :
      DrainStep total ⟨d, true, false⟩ ⟨d, true, true⟩

/-- Initial state: nothing delivered, not complete, connection open. -/
def DrainInit : DrainState := ⟨0, false, false⟩

/-- States reachable by interleaving decoder and closer steps. -/
def DrainReachable (total : Nat) (s : DrainState) : Prop :=
  Relation.ReflTransGen (DrainStep total) DrainInit s

theorem parseCount_append (l1 l2 : List Event) :
    parseCount (l1 ++ l2) = parseCount l1 + parseCount l2 := by
  simp [parseCount, List.filter_append]

theorem parseCount_newConnectionT (p : String → Except String GoURL) (a : String) :
    parseCount (newConnectionT p a).1 = 1 := by
  unfold newConnectionT
  cases p a with
  | error e => rfl
  | ok u =>
    by_cases h1 : u.Scheme = "tcp"
    · simp only [if_pos h1]
      rfl
    · by_cases h2 : u.Scheme = "unix"
      · simp only [if_neg h1, if_pos h2]
        rfl
      · simp only [if_neg h1, if_neg h2]
        rfl

theorem uploadLoop_attempted_pos (sendFails : Nat → Bool) :
    ∀ (reads : List ReadRes) (sent : Nat) (c : List Nat),
      c ∈ (uploadLoop sendFails sent reads).1 → 0 < c.length := by
  intro reads
  induction reads with
  | nil =>
    intro sent c hc
    simp [uploadLoop] at hc
  | cons r rest ih =>
    intro sent c hc
    have hlen : r.data.isEmpty = false → 0 < r.data.length := by
      intro h0
      cases hx : r.data with
      | nil => rw [hx] at h0; simp at h0
      | cons y ys => simp
    by_cases hd : r.data.isEmpty
    · by_cases hr : r.rerr
      · simp [uploadLoop, hd, hr] at hc
      · simp only [uploadLoop, hd, if_true, hr] at hc
        simp only [Bool.false_eq_true, if_false] at hc
        exact ih sent c hc
    · by_cases hs : sendFails sent
      · simp [uploadLoop, hd, hs] at hc
        subst hc
        exact hlen (by simpa using hd)
      · simp [uploadLoop, hd, hs] at hc
        rcases hc with hc | hc
        · subst hc
          exact hlen (by simpa using hd)
        · exact ih (sent + 1) c hc

theorem count_eofMark_map_chunk (l : List (List Nat)) :
    (l.map Send.chunk).count Send.eofMark = 0 := by
  rw [List.count_eq_zero]
  simp

theorem abortWatcherCloses_eq_true (vals : List Bool) : abortWatcherCloses vals = true := by
  induction vals with
  | nil => rfl
  | cons v rest ih => simpa [abortWatcherCloses] using ih

theorem uploadLoop_allFail (reads : List ReadRes) :
    ∀ sent, (uploadLoop (fun _ => true) sent reads).2 = [] ∧
      (uploadLoop (fun _ => true) sent reads).1.length ≤ 1 := by
  induction reads with
  | nil =>
    intro sent
    exact ⟨rfl, by simp [uploadLoop]⟩
  | cons r rest ih =>
    intro sent
    by_cases hd : r.data.isEmpty
    · by_cases hr : r.rerr
      · simp [uploadLoop, hd, hr]
      · simpa [uploadLoop, hd, hr] using ih sent
    · simp [uploadLoop, hd]

theorem scanStreamOutcome_allFail (reads : List ReadRes) :
    scanStreamOutcome (fun _ => true) reads = Except.error closedConnMsg := rfl

theorem uploadLoop_closedFrom_length (k : Nat) (reads : List ReadRes) :
    ∀ sent, (uploadLoop (fun n => decide (k ≤ n)) sent reads).1.length ≤ k - sent + 1 := by
  induction reads with
  | nil =>
    intro sent
    simp [uploadLoop]
  | cons r rest ih =>
    intro sent
    by_cases hd : r.data.isEmpty
    · by_cases hr : r.rerr
      · simp [uploadLoop, hd, hr]
      · simpa [uploadLoop, hd, hr] using ih sent
    · by_cases hk : k ≤ sent
      · simp [uploadLoop, hd, hk]
      · have h2 := ih (sent + 1)
        simp only [uploadLoop, hd, if_true, hk, decide_eq_true_eq, if_false,
          Bool.false_eq_true, List.length_cons]
        omega

theorem drainStep_inv {total : Nat} {a b : DrainState} (h : DrainStep total a b)
    (ih : (a.done = true → a.delivered = total) ∧ (a.closed = true → a.done = true)) :
    (b.done = true → b.delivered = total) ∧ (b.closed = true → b.done = true) := by
  cases h with
  | deliver d c hlt =>
    refine ⟨fun hdone => ?_, fun hcl => ?_⟩
    · simp at hdone
    · have := ih.2 hcl
      simp at this
  | signalDone c =>
    exact ⟨fun _ => rfl, fun _ => rfl⟩
  | close d =>
    exact ⟨fun _ => ih.1 rfl, fun _ => rfl⟩

theorem drainReachable_inv {total : Nat} {s : DrainState} (h : DrainReachable total s) :
    (s.done = true → s.delivered = total) ∧ (s.closed = true → s.done = true) := by
  have hr : Relation.ReflTransGen (DrainStep total) DrainInit s := h
  clear h
  induction hr with
  | refl =>
    exact ⟨fun hd => by simp [DrainInit] at hd, fun hc => by simp [DrainInit] at hc⟩
  | tail hab hbc ih => exact drainStep_inv hbc ih

/-- C1: `newConnection` dispatches on the parsed address: scheme `tcp` dials
the URL's host:port over TCP, scheme `unix` dials the URL's path as a local
domain socket, any other scheme dials the entire original address string as
a local domain-socket path, and a parse failure returns the error with no
dial event in the trace, i.e. before any connection attempt. -/
theorem clamd_C1_newConnection (parseURL : String → Except String GoURL) (address : String) :
    (∀ e, parseURL address = Except.error e →
      newConnectionT parseURL address = ([Event.parseAddr address], Except.error e)) ∧
    (∀ u, parseURL address = Except.ok u →
      (u.Scheme = "tcp" →
        newConnectionT parseURL address =
          ([Event.parseAddr address, Event.dialTcp u.Host],
            Except.ok (ConnTarget.tcp u.Host))) ∧
      (u.Scheme = "unix" →
        newConnectionT parseURL address =
          ([Event.parseAddr address, Event.dialUnix u.Path],
            Except.ok (ConnTarget.unixSock u.Path))) ∧
      (u.Scheme ≠ "tcp" → u.Scheme ≠ "unix" →
        newConnectionT parseURL address =
          ([Event.parseAddr address, Event.dialUnix address],
            Except.ok (ConnTarget.unixSock address)))) := by
  constructor
  · intro e he
    unfold newConnectionT
    rw [he]
  · intro u hu
    refine ⟨fun htcp => ?_, fun hunix => ?_, fun htcp hunix => ?_⟩
    · unfold newConnectionT
      rw [hu]
      simp [htcp]
    · unfold newConnectionT
      rw [hu]
      have : u.Scheme ≠ "tcp" := by rw [hunix]; decide
      simp [this, hunix]
    · unfold newConnectionT
      rw [hu]
      simp [htcp, hunix]

/-- Witness for C1 at concrete inputs: a tcp URL dials host:port, and an
address the parser rejects yields the error with a dial-free trace. -/
theorem clamd_C1_witness :
    newConnectionT parseOracle "tcp://localhost:3310" =
      ([Event.parseAddr "tcp://localhost:3310", Event.dialTcp "localhost:3310"],
        Except.ok (ConnTarget.tcp "localhost:3310")) ∧
    newConnectionT parseOracle "bogus address" =
      ([Event.parseAddr "bogus address"], Except.error "parse error") :=
  ⟨((clamd_C1_newConnection parseOracle "tcp://localhost:3310").2
      ⟨"tcp", "localhost:3310", ""⟩ rfl).1 rfl,
    (clamd_C1_newConnection parseOracle "bogus address").1 "parse error" rfl⟩

/-- C2: on the reply sequence `["POOLS: 1", "STATE: VALID",
"THREADS: live 1 idle 0 max 10", "QUEUE: 0", "MEMSTATS: heap 1M", "END"]`,
the Stats loop succeeds and yields Pools = "1" (text after the 6-character
prefix, trimmed of spaces) while State, Threads, Queue and Memstats hold the
matching records verbatim. -/
theorem clamd_C2_stats_sample :
    statsRun ["POOLS: 1", "STATE: VALID", "THREADS: live 1 idle 0 max 10", "QUEUE: 0",
        "MEMSTATS: heap 1M", "END"] =
      StatsOutcome.ok
        ⟨"1", "STATE: VALID", "THREADS: live 1 idle 0 max 10", "MEMSTATS: heap 1M",
          "QUEUE: 0"⟩ := by
  decide

/-- C3: the Stats loop skips an explicit "END" record as a no-op, and on any
record matching none of the six recognized prefixes it stops with an error
whose message embeds that record's text, producing no Stats value. -/
theorem clamd_C3_stats_end_and_unknown :
    (∀ (acc : Stats) (rest : List String),
      statsLoop acc ("END" :: rest) = statsLoop acc rest) ∧
    (∀ (acc : Stats) (raw : String) (rest : List String), statsRecognizes raw = false →
      statsLoop acc (raw :: rest) = StatsOutcome.err (statsUnknownMsg raw) ∧
      statsUnknownMsg raw = "Unknown response, got " ++ raw ++ ".") := by
  constructor
  · intro acc rest
    rfl
  · intro acc raw rest h
    simp only [statsRecognizes, Bool.or_eq_false_iff] at h
    obtain ⟨⟨⟨⟨⟨h1, h2⟩, h3⟩, h4⟩, h5⟩, h6⟩ := h
    refine ⟨?_, rfl⟩
    simp only [statsLoop, h1, h2, h3, h4, h5, h6, Bool.false_eq_true, if_false]

/-- Witness for C3: the record "BOGUS: x" matches no recognized prefix and
makes the loop fail with an error naming it. -/
theorem clamd_C3_witness :
    statsLoop Stats.empty ["BOGUS: x"] = StatsOutcome.err (statsUnknownMsg "BOGUS: x") ∧
    statsUnknownMsg "BOGUS: x" = "Unknown response, got " ++ "BOGUS: x" ++ "." :=
  clamd_C3_stats_end_and_unknown.2 Stats.empty "BOGUS: x" [] (by decide)

/-- C4 counterexample: the claim says an empty reply (response channel closed
without delivering a record) yields a protocol error and never a panic; in
the source the receive then yields a nil `*ScanResult` and `s.Raw`
dereferences it, a runtime panic, which is neither success nor an error. -/
theorem clamd_C4_counterexample :
    Ping none = PingOutcome.nilDeref ∧ Ping none ≠ PingOutcome.ok ∧
      Ping none ≠ PingOutcome.protoErr (pingInvalidMsg ⟨"", "", "", "", 0, ""⟩) := by
  refine ⟨rfl, by decide, by decide⟩

/-- C4 amended: Ping succeeds iff the delivered record's raw text is "PONG";
any other delivered record yields the invalid-response error; an empty reply
(channel closed with no record) causes a nil-pointer dereference panic
rather than an error. -/
theorem clamd_C4_ping_amended :
    (∀ s : ScanResult, Ping (some s) = PingOutcome.ok ↔ s.Raw = "PONG") ∧
    (∀ s : ScanResult, s.Raw ≠ "PONG" →
      Ping (some s) = PingOutcome.protoErr (pingInvalidMsg s)) ∧
    Ping none = PingOutcome.nilDeref := by
  refine ⟨fun s => ⟨fun h => ?_, fun h => ?_⟩, fun s h => ?_, rfl⟩
  · by_cases hr : s.Raw = "PONG"
    · exact hr
    · simp [Ping, hr] at h
  · simp [Ping, h]
  · simp [Ping, h]

/-- Witness for C4's amended theorem at concrete records. -/
theorem clamd_C4_witness :
    Ping (some ⟨"PONG", "", "", "", 0, ""⟩) = PingOutcome.ok ∧
    Ping (some ⟨"BAD", "", "", "", 0, ""⟩) =
      PingOutcome.protoErr (pingInvalidMsg ⟨"BAD", "", "", "", 0, ""⟩) :=
  ⟨(clamd_C4_ping_amended.1 ⟨"PONG", "", "", "", 0, ""⟩).mpr rfl,
    clamd_C4_ping_amended.2.1 ⟨"BAD", "", "", "", 0, ""⟩ (by decide)⟩

/-- C5: each of the five scan operations sends exactly the command line
variant word, one space, then the path verbatim, and returns the first
record of the response sequence obtained for that exact command. -/
theorem clamd_C5_scan_commands (resp : String → String → List ScanResult) (c : Clamd)
    (path : String) :
    ScanFile resp c path =
      ("SCAN" ++ " " ++ path, (resp c.address ("SCAN" ++ " " ++ path)).head?) ∧
    RawScanFile resp c path =
      ("RAWSCAN" ++ " " ++ path, (resp c.address ("RAWSCAN" ++ " " ++ path)).head?) ∧
    MultiScanFile resp c path =
      ("MULTISCAN" ++ " " ++ path, (resp c.address ("MULTISCAN" ++ " " ++ path)).head?) ∧
    ContScanFile resp c path =
      ("CONTSCAN" ++ " " ++ path, (resp c.address ("CONTSCAN" ++ " " ++ path)).head?) ∧
    AllMatchScanFile resp c path =
      ("ALLMATCHSCAN" ++ " " ++ path,
        (resp c.address ("ALLMATCHSCAN" ++ " " ++ path)).head?) :=
  ⟨rfl, rfl, rfl, rfl, rfl⟩

/-- C6: every payload the upload loop passes to sendChunk is non-empty (a
chunk is sent only when the read returned nr > 0 bytes), and the zero-length
terminator frame is sent exactly once, after the loop, as the last frame. -/
theorem clamd_C6_upload_chunks (sendFails : Nat → Bool) (reads : List ReadRes) :
    (∀ c ∈ (uploadLoop sendFails 0 reads).1, 0 < c.length) ∧
    (scanStreamFrames sendFails reads).count Send.eofMark = 1 ∧
    (scanStreamFrames sendFails reads).getLast? = some Send.eofMark := by
  refine ⟨fun c hc => uploadLoop_attempted_pos sendFails reads 0 c hc, ?_, ?_⟩
  · unfold scanStreamFrames
    rw [List.count_append, count_eofMark_map_chunk]
    rfl
  · unfold scanStreamFrames
    simp

/-- Witness for C6: a single two-byte read produces one non-empty chunk and
one terminator frame. -/
theorem clamd_C6_witness :
    0 < ([1, 2] : List Nat).length ∧
    (scanStreamFrames (fun _ => false) [⟨[1, 2], false⟩]).count Send.eofMark = 1 :=
  ⟨(clamd_C6_upload_chunks (fun _ => false) [⟨[1, 2], false⟩]).1 [1, 2] (by decide),
    (clamd_C6_upload_chunks (fun _ => false) [⟨[1, 2], false⟩]).2.1⟩

/-- C7: in every interleaving of the deferred-close goroutine with the
decoder, a state in which the connection is closed also has the completion
signal set and all `total` records delivered: the close never precedes
delivery of the final record. -/
theorem clamd_C7_close_after_drain (total : Nat) (s : DrainState)
    (h : DrainReachable total s) (hc : s.closed = true) :
    s.done = true ∧ s.delivered = total := by
  have inv := drainReachable_inv h
  exact ⟨inv.2 hc, inv.1 (inv.2 hc)⟩

/-- Witness for C7: a concrete maximal interleaving for a one-record reply
reaches the closed state only with the record delivered and the signal set. -/
theorem clamd_C7_witness :
    (⟨1, true, true⟩ : DrainState).done = true ∧
      (⟨1, true, true⟩ : DrainState).delivered = 1 := by
  have hreach : DrainReachable 1 ⟨1, true, true⟩ :=
    Relation.ReflTransGen.tail
      (Relation.ReflTransGen.tail
        (Relation.ReflTransGen.tail Relation.ReflTransGen.refl
          (DrainStep.deliver 0 false (by decide)))
        (DrainStep.signalDone false))
      (DrainStep.close 1)
  exact clamd_C7_close_after_drain 1 ⟨1, true, true⟩ hreach rfl

/-- C8: the abort watcher reaches `conn.Close()` once the abort channel
closes (after draining any buffered values); with the connection closed
before any chunk was sent, the upload loop delivers no chunk and breaks at
its first send attempt (at most one sendChunk call), and `ScanStream`
returns the sendEOF error — it terminates with neither panic nor deadlock.
The last conjunct covers a close after `k` successful sends: at most one
further send is attempted. -/
theorem clamd_C8_cancellation (vals : List Bool) (reads : List ReadRes) (k : Nat) :
    abortWatcherCloses vals = true ∧
    (uploadLoop (fun _ => true) 0 reads).2 = [] ∧
    (uploadLoop (fun _ => true) 0 reads).1.length ≤ 1 ∧
    scanStreamOutcome (fun _ => true) reads = Except.error closedConnMsg ∧
    (uploadLoop (fun n => decide (k ≤ n)) 0 reads).1.length ≤ k + 1 := by
  refine ⟨abortWatcherCloses_eq_true vals, (uploadLoop_allFail reads 0).1,
    (uploadLoop_allFail reads 0).2, scanStreamOutcome_allFail reads, ?_⟩
  simpa using uploadLoop_closedFrom_length k reads 0

/-- C9 counterexample: the claim says the address is parsed exactly once, at
client construction, and never re-parsed by a public operation; in the
source `NewClamd` records zero parses while a single public operation
already performs one, and two operations perform two. -/
theorem clamd_C9_counterexample :
    parseCount (newClamdEvents "tcp://localhost:3310") = 0 ∧
    (NewClamd "tcp://localhost:3310").address = "tcp://localhost:3310" ∧
    parseCount (simpleCommandT parseOracle (NewClamd "tcp://localhost:3310") "PING").1 = 1 ∧
    parseCount ((simpleCommandT parseOracle (NewClamd "tcp://localhost:3310") "PING").1 ++
      (simpleCommandT parseOracle (NewClamd "tcp://localhost:3310") "STATS").1) = 2 :=
  ⟨rfl, rfl, rfl, rfl⟩

/-- C9 amended: construction stores the address string verbatim and performs
no parsing; the stored string is immutable (the struct is never mutated),
and every operation re-parses it — exactly one `url.Parse` per
`simpleCommand` call. -/
theorem clamd_C9_amended (address command : String)
    (parseURL : String → Except String GoURL) :
    NewClamd address = ⟨address⟩ ∧
    parseCount (newClamdEvents address) = 0 ∧
    parseCount (simpleCommandT parseURL (NewClamd address) command).1 = 1 := by
  refine ⟨rfl, rfl, ?_⟩
  have h := parseCount_newConnectionT parseURL (NewClamd address).address
  unfold simpleCommandT
  cases (newConnectionT parseURL (NewClamd address).address).2 with
  | error e => exact h
  | ok t =>
    rw [parseCount_append, h]
    rfl

/-- C10: a record whose raw text is exactly "POOLS" passes the prefix test
but is shorter than six bytes, so `s.Raw[6:]` is a slice-bounds panic: the
Stats loop ends in the panic outcome, not a value or an error. -/
theorem clamd_C10_pools_panics (acc : Stats) (rest : List String) :
    statsLoop acc ("POOLS" :: rest) = StatsOutcome.panicked sliceBoundsMsg := rfl

end GoClamd
